import Mathlib

/-!
Verification of the `pipeline-core` crate of Asteria Studio
(`packages/pipeline-core/src/lib.rs`).

The crate exposes a single pure function:

```rust
pub fn process_page_stub(page_id: &str) -> String {
    format!("Processing not yet implemented for {page_id}")
}
```

We embed the function shallowly: Rust's `format!` with the template
`"Processing not yet implemented for {page_id}"` produces exactly the
fixed template text followed by the verbatim argument, so the embedding
is string concatenation of the template literal and the argument.
Strings are modelled by Lean's `String` (a sequence of characters,
accessed through `String.data : String → List Char`).
-/

/-- The fixed template text of the `format!` call in `process_page_stub`. -/
def stubTemplate : String := "Processing not yet implemented for "

/-- Shallow embedding of `process_page_stub` from
`packages/pipeline-core/src/lib.rs`: `format!` interpolates `page_id`
verbatim after the fixed template text. -/
def process_page_stub (page_id : String) : String :=
  stubTemplate ++ page_id

/-- A character list `xs` occurs as a contiguous substring of `ys`. -/
def contiguousSubstring (xs ys : List Char) : Prop :=
  ∃ l r : List Char, ys = l ++ xs ++ r

/-- Embedding of the test `stub_runs`: the output for `"demo"` contains
`"demo"` as a contiguous substring. -/
def stub_runs : Prop :=
  contiguousSubstring "demo".data (process_page_stub "demo").data

/-- C1: for every `page_id` (including the empty string),
`process_page_stub page_id` is exactly the literal
`"Processing not yet implemented for "` concatenated with `page_id`. -/
theorem process_page_stub_eq_template_append (page_id : String) :
    process_page_stub page_id = "Processing not yet implemented for " ++ page_id :=
  rfl

/-- C2: for every input `s`, the output of `process_page_stub s`
contains `s` as a contiguous substring. -/
theorem process_page_stub_contains_input (s : String) :
    contiguousSubstring s.data (process_page_stub s).data := by
  refine ⟨stubTemplate.data, [], ?_⟩
  simp [process_page_stub, String.data_append]

/-- C3: for every input `s`, the output of `process_page_stub s` begins
with the literal text `"Processing not yet implemented for "`. -/
theorem process_page_stub_starts_with_template (s : String) :
    ∃ t : List Char,
      (process_page_stub s).data = "Processing not yet implemented for ".data ++ t := by
  exact ⟨s.data, by simp [process_page_stub, stubTemplate, String.data_append]⟩

/-- C4: `process_page_stub` is total: every input, including the empty
string, yields a result. -/
theorem process_page_stub_total (s : String) :
    ∃ r : String, process_page_stub s = r :=
  ⟨_, rfl⟩

/-- C5: `process_page_stub` is deterministic: two invocations on the
same input produce identical outputs. -/
theorem process_page_stub_deterministic (s₁ s₂ : String) (h : s₁ = s₂) :
    process_page_stub s₁ = process_page_stub s₂ :=
  congrArg process_page_stub h

/-- Witness for C5 at the concrete input `"demo"`. -/
theorem process_page_stub_deterministic_witness :
    "demo" = "demo" ∧ process_page_stub "demo" = process_page_stub "demo" :=
  ⟨rfl, process_page_stub_deterministic "demo" "demo" rfl⟩

/-- C6: the four concrete scenarios from the specification. -/
theorem process_page_stub_scenarios :
    process_page_stub "demo" = "Processing not yet implemented for demo" ∧
    process_page_stub "" = "Processing not yet implemented for " ∧
    process_page_stub "page-42" = "Processing not yet implemented for page-42" ∧
    process_page_stub "my page" = "Processing not yet implemented for my page" := by
  refine ⟨?_, ?_, ?_, ?_⟩ <;> decide

/-- C7: the template text occupies exactly the first 35 characters (all
ASCII, hence 35 bytes) of the output; dropping them recovers the input
exactly, i.e. `s` is the exact suffix of the output. -/
theorem process_page_stub_round_trip (s : String) :
    (process_page_stub s).data.drop 35 = s.data ∧
    (process_page_stub s).data = "Processing not yet implemented for ".data ++ s.data := by
  have hdata : (process_page_stub s).data = stubTemplate.data ++ s.data := by
    simp [process_page_stub, String.data_append]
  have hlen : stubTemplate.data.length = 35 := by decide
  refine ⟨?_, hdata⟩
  rw [hdata, ← hlen, List.drop_left]

/-- C8: `process_page_stub` is injective: equal outputs force equal
inputs. -/
theorem process_page_stub_injective (s₁ s₂ : String)
    (h : process_page_stub s₁ = process_page_stub s₂) : s₁ = s₂ := by
  have hd : stubTemplate.data ++ s₁.data = stubTemplate.data ++ s₂.data := by
    have := congrArg String.data h
    simpa [process_page_stub, String.data_append] using this
  exact String.ext (List.append_cancel_left hd)

/-- Witness for C8 at the concrete input `"demo"`. -/
theorem process_page_stub_injective_witness :
    process_page_stub "demo" = process_page_stub "demo" ∧ "demo" = "demo" :=
  ⟨rfl, process_page_stub_injective "demo" "demo" rfl⟩

/-- The test `stub_runs` passes on the embedding. -/
theorem stub_runs_holds : stub_runs :=
  process_page_stub_contains_input "demo"
